import Mathlib

/-!
Verification development for `pull_nyc_rent.py`, a one-shot ETL pipeline:
fetch ACS5 median gross rent per census tract per year, spatially join
tracts to NTAs, aggregate by median, CPI-adjust, pivot wide and export.

Shallow embedding conventions:
- DataFrames become lists of structures; a missing value (pandas NaN) is
  `Option.none`.
- Numeric estimate and CPI values are rationals (`ℚ`); `pd.to_numeric`
  string parsing is abstracted: an `ApiRow` carries the already-coerced
  `Option ℚ` reading of the estimate string.
- Network and filesystem effects are passed in explicitly: the per-year
  HTTP response is an oracle `Int → Option ApiResponse` (`none` models a
  transport failure where no response arrives), and the TIGER archive
  cache is an explicit `FsState`.
- Python exceptions become `Except PipelineError`.
- `groupby`/`pivot_table` sort group keys in pandas; the embedding keeps
  first-occurrence key order instead.  Every property proved here is
  insensitive to row order (membership, per-key values, cardinality).
- Geometry is an abstract type `G`; the shapely `within` predicate of the
  spatial join is an explicit parameter `G → G → Bool`, applied after the
  coordinate reprojection (which the embedding abstracts away).
-/

/-! ## Constants from the source -/

/-- NYC county FIPS codes (the 5 boroughs), `NYC_COUNTIES` in the source. -/
def NYC_COUNTIES : List String := ["005", "047", "061", "081", "085"]

/-- New York State FIPS code, `STATE_FIPS` in the source. -/
def STATE_FIPS : String := "36"

/-! ## Generic list helpers (pandas `drop_duplicates`, sorting, median, mean) -/

/-- Helper for `dedupKeepFirst`: drops elements already in `seen`. -/
def dedupKeepFirstAux [DecidableEq α] : List α → List α → List α
  | _, [] => []
  | seen, x :: xs =>
    if x ∈ seen then dedupKeepFirstAux seen xs
    else x :: dedupKeepFirstAux (x :: seen) xs

/-- Pandas `drop_duplicates`: keeps the first occurrence of each element. -/
def dedupKeepFirst [DecidableEq α] (l : List α) : List α :=
  dedupKeepFirstAux [] l

theorem sublist_dedupKeepFirstAux [DecidableEq α] (l : List α) :
    ∀ seen : List α, List.Sublist (dedupKeepFirstAux seen l) l := by
  induction l with
  | nil => intro seen; simp [dedupKeepFirstAux]
  | cons x xs ih =>
    intro seen
    by_cases hx : x ∈ seen
    · simp only [dedupKeepFirstAux, if_pos hx]
      exact (ih seen).trans (List.sublist_cons_self x xs)
    · simp only [dedupKeepFirstAux, if_neg hx]
      exact List.Sublist.cons₂ x (ih (x :: seen))

theorem sublist_dedupKeepFirst [DecidableEq α] (l : List α) :
    List.Sublist (dedupKeepFirst l) l :=
  sublist_dedupKeepFirstAux l []

theorem mem_dedupKeepFirstAux [DecidableEq α] (a : α) (l : List α) :
    ∀ seen : List α, a ∈ dedupKeepFirstAux seen l ↔ a ∈ l ∧ a ∉ seen := by
  induction l with
  | nil => intro seen; simp [dedupKeepFirstAux]
  | cons x xs ih =>
    intro seen
    by_cases hx : x ∈ seen
    · simp only [dedupKeepFirstAux, if_pos hx, ih, List.mem_cons]
      constructor
      · rintro ⟨h1, h2⟩; exact ⟨Or.inr h1, h2⟩
      · rintro ⟨h1 | h1, h2⟩
        · subst h1; exact absurd hx h2
        · exact ⟨h1, h2⟩
    · simp only [dedupKeepFirstAux, if_neg hx, List.mem_cons, ih]
      constructor
      · rintro (rfl | ⟨h1, h2⟩)
        · exact ⟨Or.inl rfl, hx⟩
        · exact ⟨Or.inr h1, fun hs => h2 (Or.inr hs)⟩
      · rintro ⟨rfl | h1, h2⟩
        · exact Or.inl rfl
        · by_cases hax : a = x
          · exact Or.inl hax
          · exact Or.inr ⟨h1, by simp [List.mem_cons, hax, h2]⟩

theorem mem_dedupKeepFirst [DecidableEq α] (a : α) (l : List α) :
    a ∈ dedupKeepFirst l ↔ a ∈ l := by
  simp [dedupKeepFirst, mem_dedupKeepFirstAux]

theorem nodup_dedupKeepFirstAux [DecidableEq α] (l : List α) :
    ∀ seen : List α, (dedupKeepFirstAux seen l).Nodup := by
  induction l with
  | nil => intro seen; simp [dedupKeepFirstAux]
  | cons x xs ih =>
    intro seen
    by_cases hx : x ∈ seen
    · simpa only [dedupKeepFirstAux, if_pos hx] using ih seen
    · simp only [dedupKeepFirstAux, if_neg hx]
      refine List.nodup_cons.mpr ⟨fun hmem => ?_, ih (x :: seen)⟩
      rcases (mem_dedupKeepFirstAux x xs (x :: seen)).1 hmem with ⟨_, h2⟩
      exact h2 (List.mem_cons_self x seen)

theorem nodup_dedupKeepFirst [DecidableEq α] (l : List α) :
    (dedupKeepFirst l).Nodup :=
  nodup_dedupKeepFirstAux l []

/-- Insert a rational into a sorted list, keeping it sorted. -/
def insertSorted (x : ℚ) : List ℚ → List ℚ
  | [] => [x]
  | y :: ys => if x ≤ y then x :: y :: ys else y :: insertSorted x ys

/-- Sort a list of rationals ascending (insertion sort). -/
def sortRats : List ℚ → List ℚ
  | [] => []
  | x :: xs => insertSorted x (sortRats xs)

/-- Pandas `Series.median` on the non-missing values: middle element of the
sorted list, or the mean of the two middle elements when the count is even. -/
def median (l : List ℚ) : ℚ :=
  let s := sortRats l
  let n := l.length
  if n % 2 = 1 then s.getD (n / 2) 0
  else (s.getD (n / 2 - 1) 0 + s.getD (n / 2) 0) / 2

/-- Median of a group, `none` when no non-missing value contributes
(pandas returns NaN for an all-NaN group). -/
def medianOpt : List ℚ → Option ℚ
  | [] => none
  | x :: xs => some (median (x :: xs))

/-- Mean of a group of non-missing values, `none` when empty (pandas
`mean` with `skipna=True`, the default `pivot_table` aggregator). -/
def meanOpt : List ℚ → Option ℚ
  | [] => none
  | x :: xs => some ((x :: xs).sum / ((x :: xs).length : ℚ))

/-! ## Errors raised by the pipeline -/

/-- Exceptions the pipeline can raise, by Python origin:
`httpError` is `requests.HTTPError` from `raise_for_status` (non-success
status); `transportError` is a connection/timeout failure where no
response arrives (a `requests` exception that is not `HTTPError`);
`parseError` is a JSON decoding failure of a successful response;
`concatError` is `pd.concat` on an empty frame list; `cpiBaseMissing` is
the explicit `ValueError` for a missing base year; `cpiYearMissing` is
the `KeyError` from `cpi.loc` on a missing row year. -/
inductive PipelineError where
  | httpError
  | transportError
  | parseError
  | concatError
  | cpiBaseMissing
  | cpiYearMissing
deriving DecidableEq

/-! ## Statistical fetcher (`fetch_acs5_rent`, `fetch_many_years`) -/

/-- One data row of the parsed Census API JSON table.  The API returns
columns `NAME,B25064_001E,state,county,tract` as strings; `value` is the
`pd.to_numeric(..., errors=coerce)` reading of the `B25064_001E` string
(`none` when unparsable). -/
structure ApiRow where
  name : String
  value : Option ℚ
  state : String
  county : String
  tract : String
deriving DecidableEq

/-- A received HTTP response: status code and parsed body (`none` body
models `r.json()` raising on invalid JSON). -/
structure ApiResponse where
  status : Nat
  body : Option (List ApiRow)
deriving DecidableEq

/-- One tract-year rent record, the output row type of `fetch_acs5_rent`
(columns `geoid`, `year`, `B25064_001E`). -/
structure RentRow where
  geoid : String
  year : Int
  B25064_001E : Option ℚ
deriving DecidableEq

/-- Embedding of `fetch_acs5_rent`: check transport, `raise_for_status`,
JSON parse; then filter rows to NYC counties, build
`geoid = STATE_FIPS ++ county ++ tract`, attach the year. -/
def fetch_acs5_rent (year : Int) (resp : Option ApiResponse) :
    Except PipelineError (List RentRow) :=
  match resp with
  | none => .error .transportError
  | some r =>
    if 400 ≤ r.status then .error .httpError
    else
      match r.body with
      | none => .error .parseError
      | some rows =>
        .ok ((rows.filter (fun a => NYC_COUNTIES.contains a.county)).map
          (fun a =>
            { geoid := STATE_FIPS ++ a.county ++ a.tract
              year := year
              B25064_001E := a.value }))

/-- Python `range(start, end+1)` over the requested years. -/
def yearRange (start fin : Int) : List Int :=
  (List.range (fin + 1 - start).toNat).map (fun i => start + i)

/-- The driving loop of `fetch_many_years`: fetch each year, catching
only `requests.HTTPError` (skip the year with a warning); every other
exception propagates.  Returns the list of per-year frames. -/
def fetchLoop (responses : Int → Option ApiResponse) :
    List Int → Except PipelineError (List (List RentRow))
  | [] => .ok []
  | y :: ys =>
    match fetch_acs5_rent y (responses y) with
    | .ok df => (fetchLoop responses ys).map (fun frames => df :: frames)
    | .error .httpError => fetchLoop responses ys
    | .error e => .error e

/-- Embedding of `fetch_many_years`: run the loop, then `pd.concat`,
which raises when the frame list is empty. -/
def fetch_many_years (start fin : Int) (responses : Int → Option ApiResponse) :
    Except PipelineError (List RentRow) :=
  match fetchLoop responses (yearRange start fin) with
  | .error e => .error e
  | .ok frames => if frames.isEmpty then .error .concatError else .ok frames.flatten

/-! ## Geometry loader (`get_tiger_tracts_2020`, `get_nta2020`) -/

/-- One record of the extracted TIGER tract shapefile (columns the source
uses: `GEOID`, `COUNTYFP`, `geometry`).  `G` is the abstract geometry
type. -/
structure ShapeRec (G : Type) where
  GEOID : String
  COUNTYFP : String
  geometry : G
deriving DecidableEq

/-- A tract row of the filtered GeoDataFrame returned by
`get_tiger_tracts_2020` (columns `GEOID`, `geometry`). -/
structure TractGeom (G : Type) where
  GEOID : String
  geometry : G
deriving DecidableEq

/-- An NTA row (columns `nta_code`, `nta_name`, `geometry`). -/
structure NtaGeom (G : Type) where
  nta_code : String
  nta_name : String
  geometry : G
deriving DecidableEq

/-- The remote side of the TIGER download: the shapefile content that
downloading and extracting the vintage-2020 archive would produce. -/
structure TigerEnv (G : Type) where
  remote : List (ShapeRec G)

/-- State of the local extraction directory `data/tiger/tl_2020_36_tract`:
`none` when absent, `some recs` when it exists holding `recs`. -/
abbrev FsState (G : Type) := Option (List (ShapeRec G))

/-- Result of one `get_tiger_tracts_2020` call: the filesystem state after
the call, whether a download was performed, and the returned rows. -/
structure TigerResult (G : Type) where
  state : FsState G
  downloaded : Bool
  result : List (TractGeom G)

/-- Embedding of `get_tiger_tracts_2020`: download and extract only when
the extraction directory does not already exist, then read the shapefile
and filter `COUNTYFP` to the NYC county allow-list. -/
def get_tiger_tracts_2020 {G : Type} (env : TigerEnv G) (st : FsState G) :
    TigerResult G :=
  match st with
  | some recs =>
    { state := some recs
      downloaded := false
      result := (recs.filter (fun r => NYC_COUNTIES.contains r.COUNTYFP)).map
        (fun r => { GEOID := r.GEOID, geometry := r.geometry }) }
  | none =>
    { state := some env.remote
      downloaded := true
      result := (env.remote.filter (fun r => NYC_COUNTIES.contains r.COUNTYFP)).map
        (fun r => { GEOID := r.GEOID, geometry := r.geometry }) }

/-- Embedding of `get_nta2020`: the simplified NTA set where each tract is
its own NTA, with `nta_code = GEOID` and a synthetic display name. -/
def get_nta2020 {G : Type} (env : TigerEnv G) (st : FsState G) :
    FsState G × List (NtaGeom G) :=
  let r := get_tiger_tracts_2020 env st
  (r.state,
   r.result.map (fun t =>
     { nta_code := t.GEOID, nta_name := "Tract " ++ t.GEOID, geometry := t.geometry }))

/-! ## Spatial join (`spatial_join_to_nta`) -/

/-- One row of the crosswalk `sj[GEOID, nta_code, nta_name]`: with the
left spatial join, a tract contained in no NTA keeps a row whose NTA
columns are missing. -/
structure CrossRow where
  GEOID : String
  nta_code : Option String
  nta_name : Option String
deriving DecidableEq

/-- Rows `gpd.sjoin(tr, ntas, how=left, predicate=within)` produces for a
single tract: one row per NTA whose polygon fully contains the tract, or
one row with missing NTA columns when there is none. -/
def sjBlock {G : Type} (within : G → G → Bool) (ntas : List (NtaGeom G))
    (t : TractGeom G) : List CrossRow :=
  match ntas.filter (fun n => within t.geometry n.geometry) with
  | [] => [{ GEOID := t.GEOID, nta_code := none, nta_name := none }]
  | m :: ms =>
    (m :: ms).map (fun n =>
      { GEOID := t.GEOID, nta_code := some n.nta_code, nta_name := some n.nta_name })

/-- Embedding of `spatial_join_to_nta`: left spatial join of tracts into
NTAs under the strict `within` predicate, then `drop_duplicates`. -/
def spatial_join_to_nta {G : Type} (within : G → G → Bool)
    (tracts : List (TractGeom G)) (ntas : List (NtaGeom G)) : List CrossRow :=
  dedupKeepFirst (tracts.flatMap (sjBlock within ntas))

/-! ## Aggregation (`aggregate_to_nta`) -/

/-- One row of `rents.merge(cross, left_on=geoid, right_on=GEOID,
how=left)`: rent columns plus the (possibly missing) NTA columns. -/
structure MergedRow where
  geoid : String
  year : Int
  B25064_001E : Option ℚ
  nta_code : Option String
  nta_name : Option String
deriving DecidableEq

/-- Rows the left merge produces for a single rent record: one per
matching crosswalk row, or a single row with missing NTA columns. -/
def mergeOne (cross : List CrossRow) (r : RentRow) : List MergedRow :=
  match cross.filter (fun c => c.GEOID = r.geoid) with
  | [] =>
    [{ geoid := r.geoid, year := r.year, B25064_001E := r.B25064_001E,
       nta_code := none, nta_name := none }]
  | c :: cs =>
    (c :: cs).map (fun c =>
      { geoid := r.geoid, year := r.year, B25064_001E := r.B25064_001E,
        nta_code := c.nta_code, nta_name := c.nta_name })

/-- The left merge of rent records with the crosswalk. -/
def merge_rents_cross (rents : List RentRow) (cross : List CrossRow) :
    List MergedRow :=
  rents.flatMap (mergeOne cross)

/-- Group key of `groupby([nta_code, nta_name, year])`: `none` when a key
column is missing (pandas drops such rows from the grouping). -/
def aggKey (r : MergedRow) : Option (String × String × Int) :=
  match r.nta_code, r.nta_name with
  | some c, some n => some (c, n, r.year)
  | _, _ => none

/-- The (group key, estimate) pairs reaching the groupby: the merged
frame after `dropna(subset=[nta_code])`, keyed, with rows whose key has a
missing component dropped by the grouping itself. -/
def groupedPairs (rents : List RentRow) (cross : List CrossRow) :
    List ((String × String × Int) × Option ℚ) :=
  ((merge_rents_cross rents cross).filter (fun r => r.nta_code.isSome)).filterMap
    (fun r => (aggKey r).map (fun k => (k, r.B25064_001E)))

/-- One row of the NTA-year table (columns `nta_code`, `nta_name`,
`year`, `B25064_001E`). -/
structure NtaYearRow where
  nta_code : String
  nta_name : String
  year : Int
  B25064_001E : Option ℚ
deriving DecidableEq

/-- Embedding of `aggregate_to_nta`: left-merge rents with the crosswalk,
drop rows with no NTA mapping, group by (nta_code, nta_name, year) and
take the median of the non-missing estimates of each group. -/
def aggregate_to_nta (rents : List RentRow) (cross : List CrossRow) :
    List NtaYearRow :=
  let df2 := groupedPairs rents cross
  (dedupKeepFirst (df2.map (fun p => p.1))).map
    (fun k =>
      { nta_code := k.1, nta_name := k.2.1, year := k.2.2,
        B25064_001E :=
          medianOpt ((df2.filter (fun p => p.1 = k)).filterMap (fun p => p.2)) })

/-! ## CPI adjustment (`cpi_adjust`) -/

/-- Lookup in the CPI index table (`cpi.loc`); the table is assumed keyed
by distinct years, as a CSV indexed by `year` is. -/
def lookupCpi (cpi : List (Int × ℚ)) (y : Int) : Option ℚ :=
  (cpi.find? (fun p => p.1 = y)).map (fun p => p.2)

/-- One row of the adjusted table: the NTA-year columns plus `rent_adj`. -/
structure AdjRow where
  nta_code : String
  nta_name : String
  year : Int
  B25064_001E : Option ℚ
  rent_adj : Option ℚ
deriving DecidableEq

/-- The row-wise `df.apply` of `cpi_adjust`: each row's year must be in
the index table (`cpi.loc` raises `KeyError` otherwise), and
`rent_adj = B25064_001E * (base / cpi.loc[year])`, missing estimates
staying missing. -/
def adjustRows (base : ℚ) (cpi : List (Int × ℚ)) :
    List NtaYearRow → Except PipelineError (List AdjRow)
  | [] => .ok []
  | r :: rs =>
    match lookupCpi cpi r.year with
    | none => .error .cpiYearMissing
    | some c =>
      (adjustRows base cpi rs).map (fun rest =>
        { nta_code := r.nta_code, nta_name := r.nta_name, year := r.year,
          B25064_001E := r.B25064_001E,
          rent_adj := r.B25064_001E.map (fun v => v * (base / c)) } :: rest)

/-- Embedding of `cpi_adjust`: fail outright (`ValueError`) when the base
year is absent from the index table, otherwise adjust every row. -/
def cpi_adjust (df : List NtaYearRow) (cpi : List (Int × ℚ))
    (base_year : Int := 2025) : Except PipelineError (List AdjRow) :=
  match lookupCpi cpi base_year with
  | none => .error .cpiBaseMissing
  | some base => adjustRows base cpi df

/-! ## Pivot (`pivot_wide`) and export (`wide_to_geojson`) -/

/-- Group key of the pivot grouping (index columns plus the `year`
column). -/
def pkey (r : AdjRow) : String × String × Int :=
  (r.nta_code, r.nta_name, r.year)

/-- The aggregated frame of `pivot_table` before unstacking: one
(key, mean of non-missing `rent_adj`) pair per distinct key. -/
def pivotGroups (df : List AdjRow) : List ((String × String × Int) × Option ℚ) :=
  (dedupKeepFirst (df.map pkey)).map
    (fun k =>
      (k, meanOpt ((df.filter (fun r => pkey r = k)).filterMap (fun r => r.rent_adj))))

/-- With `dropna=True` (the default), `pivot_table` drops aggregated
groups whose value is NaN before unstacking. -/
def survivingGroups (df : List AdjRow) : List ((String × String × Int) × Option ℚ) :=
  (pivotGroups df).filter (fun g => g.2.isSome)

/-- Row index of the wide table: the (nta_code, nta_name) pairs of the
surviving groups. -/
def pivotPairs (df : List AdjRow) : List (String × String) :=
  dedupKeepFirst ((survivingGroups df).map (fun g => (g.1.1, g.1.2.1)))

/-- Column index of the wide table: the years of the surviving groups. -/
def pivotYears (df : List AdjRow) : List Int :=
  dedupKeepFirst ((survivingGroups df).map (fun g => g.1.2.2))

/-- One row of the wide table; `cells` holds one `(column name, value)`
entry per year column, named by the `rent_<year>` convention, with a
missing (unit, year) combination a missing cell. -/
structure WideRow where
  nta_code : String
  nta_name : String
  cells : List (String × Option ℚ)
deriving DecidableEq

/-- The unstacked wide row of one (nta_code, nta_name) pair. -/
def pivotRow (df : List AdjRow) (p : String × String) : WideRow :=
  { nta_code := p.1, nta_name := p.2,
    cells := (pivotYears df).map (fun y =>
      ("rent_" ++ toString y,
       ((survivingGroups df).find? (fun g => g.1 = (p.1, p.2, y))).bind (fun g => g.2))) }

/-- Embedding of `pivot_wide`: `pivot_table` on index (nta_code,
nta_name), columns `year`, values `rent_adj`, then the `rent_<year>`
column renaming. -/
def pivot_wide (df : List AdjRow) : List WideRow :=
  (pivotPairs df).map (pivotRow df)

/-- Round half to even (numpy/pandas `round(0)` semantics). -/
def roundHalfEven (q : ℚ) : ℤ :=
  let f := ⌊q⌋
  let r := q - f
  if r < 1/2 then f
  else if 1/2 < r then f + 1
  else if f % 2 = 0 then f else f + 1

/-- One output GeoJSON feature: NTA identity, geometry and the rounded
rent columns. -/
structure Feature (G : Type) where
  nta_code : String
  nta_name : String
  geometry : G
  props : List (String × Option ℚ)

/-- Column names of the wide table (used to fill the all-missing columns
of an NTA with no wide row under the left merge). -/
def wideColumns (wide : List WideRow) : List String :=
  match wide with
  | [] => []
  | w :: _ => w.cells.map (fun c => c.1)

/-- Embedding of `wide_to_geojson`: left-merge NTA geometry with the wide
rows on `nta_code`, round every rent column half-to-even, and emit one
feature per merged row. -/
def wide_to_geojson {G : Type} (wide : List WideRow) (ntas : List (NtaGeom G)) :
    List (Feature G) :=
  ntas.flatMap (fun n =>
    match wide.filter (fun w => w.nta_code = n.nta_code) with
    | [] =>
      [{ nta_code := n.nta_code, nta_name := n.nta_name, geometry := n.geometry,
         props := (wideColumns wide).map (fun c => (c, none)) }]
    | w :: ws =>
      (w :: ws).map (fun w =>
        { nta_code := n.nta_code, nta_name := n.nta_name, geometry := n.geometry,
          props := w.cells.map (fun cell =>
            (cell.1, cell.2.map (fun q => (roundHalfEven q : ℚ)))) }))

/-! ## The main pipeline (`main`) -/

/-- Embedding of `main` after argument parsing: fetch, load geometry,
spatially join, aggregate, CPI-adjust to base year 2025, pivot and
export.  The output file exists exactly when the result is `Except.ok`;
any earlier error aborts before `wide_to_geojson` runs, so no (partial)
output is written. -/
def main_run {G : Type} (responses : Int → Option ApiResponse)
    (env : TigerEnv G) (st0 : FsState G) (within : G → G → Bool)
    (cpi : List (Int × ℚ)) (start fin : Int) :
    Except PipelineError (List (Feature G)) :=
  match fetch_many_years start fin responses with
  | .error e => .error e
  | .ok rents =>
    let r1 := get_tiger_tracts_2020 env st0
    let r2 := get_nta2020 env r1.state
    let cross := spatial_join_to_nta within r1.result r2.2
    let nta_year := aggregate_to_nta rents cross
    match cpi_adjust nta_year cpi 2025 with
    | .error e => .error e
    | .ok adj => .ok (wide_to_geojson (pivot_wide adj) r2.2)

/-! ## Supporting lemmas for the fetch loop -/

theorem fetchLoop_skip (responses : Int → Option ApiResponse) (y : Int)
    (rowsFor : Int → List RentRow)
    (hfail : fetch_acs5_rent y (responses y) = .error .httpError) :
    ∀ years : List Int,
      (∀ z ∈ years, z ≠ y → fetch_acs5_rent z (responses z) = .ok (rowsFor z)) →
      fetchLoop responses years = .ok ((years.filter (fun z => z ≠ y)).map rowsFor) := by
  intro years
  induction years with
  | nil => intro _; simp [fetchLoop]
  | cons z zs ih =>
    intro hok
    have htail := ih (fun w hw hne => hok w (List.mem_cons_of_mem _ hw) hne)
    by_cases hz : z = y
    · subst hz
      simp only [fetchLoop, hfail, htail, List.filter_cons]
      simp
    · have hz1 : fetch_acs5_rent z (responses z) = .ok (rowsFor z) :=
        hok z (List.mem_cons_self _ _) hz
      simp only [fetchLoop, hz1, htail, List.filter_cons]
      simp [hz, Except.map]

theorem fetchLoop_allFail (responses : Int → Option ApiResponse) :
    ∀ years : List Int,
      (∀ z ∈ years, fetch_acs5_rent z (responses z) = .error .httpError) →
      fetchLoop responses years = .ok [] := by
  intro years
  induction years with
  | nil => intro _; simp [fetchLoop]
  | cons z zs ih =>
    intro h
    simp only [fetchLoop, h z (List.mem_cons_self _ _)]
    exact ih (fun w hw => h w (List.mem_cons_of_mem _ hw))

/-! ## Claim C1 -/

/-- Responses where the middle year 2020 suffers a transport failure (no
response at all) and the other years return valid data. -/
def c1tresps : Int → Option ApiResponse := fun z =>
  if z = 2020 then none
  else some { status := 200,
              body := some [{ name := "t", value := some 1000, state := "36",
                              county := "005", tract := "000100" }] }

/-- Claim C1, counterexample: with a 3-year range whose middle year fails
at the transport level (not an HTTP non-success response), the driving
loop of `fetch_many_years` does not catch the failure: the whole
multi-year fetch aborts with the transport error even though the other
two years fetched successfully, contradicting the claim that any
transport failure is caught per-year and the other years' rows kept. -/
theorem C1_counterexample :
    fetch_acs5_rent 2019 (c1tresps 2019)
        = .ok [{ geoid := "36005000100", year := 2019, B25064_001E := some 1000 }]
    ∧ fetch_acs5_rent 2021 (c1tresps 2021)
        = .ok [{ geoid := "36005000100", year := 2021, B25064_001E := some 1000 }]
    ∧ fetch_many_years 2019 2021 c1tresps = .error .transportError :=
  ⟨rfl, rfl, rfl⟩

/-- Claim C1, amended: only an HTTP non-success failure
(`requests.HTTPError`) of a single year's fetch is caught at the driving
loop and logged as a warning; that year's rows are omitted and every
other year's rows are kept, and such a failure never aborts the
multi-year fetch.  Other failures (transport, JSON parse) propagate and
abort the whole fetch. -/
theorem C1_theorem (s y e : Int) (responses : Int → Option ApiResponse)
    (rowsFor : Int → List RentRow)
    (hfail : fetch_acs5_rent y (responses y) = .error .httpError)
    (hok : ∀ z ∈ yearRange s e, z ≠ y → fetch_acs5_rent z (responses z) = .ok (rowsFor z))
    (hother : ∃ z ∈ yearRange s e, z ≠ y) :
    fetch_many_years s e responses
      = .ok ((((yearRange s e).filter (fun z => z ≠ y)).map rowsFor).flatten) := by
  have hloop := fetchLoop_skip responses y rowsFor hfail (yearRange s e) hok
  obtain ⟨z, hz1, hz2⟩ := hother
  have hmem : z ∈ (yearRange s e).filter (fun w => w ≠ y) := by
    simp only [List.mem_filter, decide_eq_true_eq]
    exact ⟨hz1, hz2⟩
  have hne : ((yearRange s e).filter (fun w => w ≠ y)).map rowsFor ≠ [] := by
    intro h0
    rw [List.map_eq_nil_iff] at h0
    rw [h0] at hmem
    exact List.not_mem_nil z hmem
  unfold fetch_many_years
  rw [hloop]
  simp only [List.isEmpty_iff, if_neg hne]

/-- Responses where the middle year 2020 fails with an HTTP non-success
status and the other years return valid data. -/
def c1wresps : Int → Option ApiResponse := fun z =>
  if z = 2020 then some { status := 500, body := none }
  else some { status := 200,
              body := some [{ name := "t", value := some 1000, state := "36",
                              county := "005", tract := "000100" }] }

/-- Per-year rows of the non-failing years of `c1wresps`. -/
def c1rows : Int → List RentRow := fun z =>
  [{ geoid := "36005000100", year := z, B25064_001E := some 1000 }]

/-- Witness for C1 at a concrete 3-year range: the middle year's HTTP
failure is skipped with the first and third years' rows kept. -/
theorem C1_witness :
    fetch_many_years 2019 2021 c1wresps
      = .ok ((((yearRange 2019 2021).filter (fun z => z ≠ 2020)).map c1rows).flatten) := by
  refine C1_theorem 2019 2020 2021 c1wresps c1rows rfl ?_ ?_
  · intro z hz hne
    have hy : yearRange 2019 2021 = [2019, 2020, 2021] := by decide
    rw [hy] at hz
    simp only [List.mem_cons, List.not_mem_nil, or_false] at hz
    rcases hz with h | h | h
    · subst h; rfl
    · exact absurd h hne
    · subst h; rfl
  · refine ⟨2019, ?_, by decide⟩
    have hy : yearRange 2019 2021 = [2019, 2020, 2021] := by decide
    rw [hy]
    exact List.mem_cons_self _ _

/-! ## Claim C9 -/

/-- Claim C9: when every year's fetch in the requested range fails with
the caught per-year error, no frame is collected and `pd.concat` raises
on the empty list, so the pipeline aborts instead of passing an empty
table downstream. -/
theorem C9_theorem (s e : Int) (responses : Int → Option ApiResponse)
    (h : ∀ z ∈ yearRange s e, fetch_acs5_rent z (responses z) = .error .httpError) :
    fetch_many_years s e responses = .error .concatError := by
  unfold fetch_many_years
  rw [fetchLoop_allFail responses (yearRange s e) h]
  rfl

/-- Responses where every year fails with an HTTP non-success status. -/
def c9resps : Int → Option ApiResponse := fun _ =>
  some { status := 500, body := none }

/-- Witness for C9 at a concrete 3-year range with every year failing. -/
theorem C9_witness :
    fetch_many_years 2019 2021 c9resps = .error .concatError :=
  C9_theorem 2019 2021 c9resps (fun _ _ => rfl)

/-! ## Claim C10 -/

/-- Claim C10: calling the geometry loader a second time with the same
vintage, once the extracted archive directory exists, performs no second
download and returns the identical polygon set (and leaves the cache
state unchanged). -/
theorem C10_theorem {G : Type} (env : TigerEnv G) (st : FsState G) :
    (get_tiger_tracts_2020 env (get_tiger_tracts_2020 env st).state).downloaded = false
    ∧ (get_tiger_tracts_2020 env (get_tiger_tracts_2020 env st).state).result
        = (get_tiger_tracts_2020 env st).result
    ∧ (get_tiger_tracts_2020 env (get_tiger_tracts_2020 env st).state).state
        = (get_tiger_tracts_2020 env st).state := by
  cases st <;> exact ⟨rfl, rfl, rfl⟩

/-! ## Supporting lemmas for the CPI normalizer -/

theorem cpi_adjust_base_missing (cpi : List (Int × ℚ)) (base_year : Int)
    (h : lookupCpi cpi base_year = none) (df : List NtaYearRow) :
    cpi_adjust df cpi base_year = .error .cpiBaseMissing := by
  simp [cpi_adjust, h]

theorem adjustRows_year_missing (base : ℚ) (cpi : List (Int × ℚ)) :
    ∀ (df : List NtaYearRow) (r : NtaYearRow), r ∈ df →
      lookupCpi cpi r.year = none →
      adjustRows base cpi df = .error .cpiYearMissing := by
  intro df
  induction df with
  | nil => intro r hr; cases hr
  | cons x xs ih =>
    intro r hr hy
    rcases List.mem_cons.1 hr with h | h
    · subst h
      simp [adjustRows, hy]
    · cases hx : lookupCpi cpi x.year with
      | none => simp [adjustRows, hx]
      | some c => simp [adjustRows, hx, ih r h hy, Except.map]

/-- The adjusted row the spec formula predicts for a row whose year is in
the index table: `rent_adj = B25064_001E * (index[2025] / index[year])`. -/
def expectedAdjRow (cpi : List (Int × ℚ)) (b : ℚ) (r : NtaYearRow) : AdjRow :=
  { nta_code := r.nta_code, nta_name := r.nta_name, year := r.year,
    B25064_001E := r.B25064_001E,
    rent_adj := r.B25064_001E.map (fun v => v * (b / ((lookupCpi cpi r.year).getD 0))) }

theorem adjustRows_ok (b : ℚ) (cpi : List (Int × ℚ)) :
    ∀ df : List NtaYearRow, (∀ r ∈ df, (lookupCpi cpi r.year).isSome) →
      adjustRows b cpi df = .ok (df.map (expectedAdjRow cpi b)) := by
  intro df
  induction df with
  | nil => intro _; simp [adjustRows]
  | cons x xs ih =>
    intro h
    have hx := h x (List.mem_cons_self _ _)
    cases hlk : lookupCpi cpi x.year with
    | none => rw [hlk] at hx; simp at hx
    | some c =>
      have htail := ih (fun r hr => h r (List.mem_cons_of_mem _ hr))
      simp [adjustRows, hlk, htail, Except.map, expectedAdjRow]

/-! ## Claim C2 -/

/-- Claim C2: the inflation normalizer fails outright when the base
(reference) year 2025 is absent from the CPI index table, and then the
whole pipeline produces no output file at all (the export step is never
reached); and with the base year present, it fails outright when any
input row's year is absent from the index table — no implicit skipping
of such rows. -/
theorem C2_theorem {G : Type} (cpi1 cpi2 : List (Int × ℚ)) (df : List NtaYearRow)
    (r : NtaYearRow) (b : ℚ)
    (h1 : lookupCpi cpi1 2025 = none)
    (h2 : lookupCpi cpi2 2025 = some b)
    (hr : r ∈ df)
    (hy : lookupCpi cpi2 r.year = none) :
    cpi_adjust df cpi1 2025 = .error .cpiBaseMissing
    ∧ (∀ (responses : Int → Option ApiResponse) (env : TigerEnv G) (st0 : FsState G)
        (within : G → G → Bool) (s e : Int) (out : List (Feature G)),
        main_run responses env st0 within cpi1 s e ≠ .ok out)
    ∧ cpi_adjust df cpi2 2025 = .error .cpiYearMissing := by
  refine ⟨cpi_adjust_base_missing cpi1 2025 h1 df, ?_, ?_⟩
  · intro responses env st0 within s e out hout
    unfold main_run at hout
    cases hfe : fetch_many_years s e responses with
    | error err => rw [hfe] at hout; simp at hout
    | ok rents =>
      rw [hfe] at hout
      simp only [cpi_adjust_base_missing cpi1 2025 h1] at hout
      exact Except.noConfusion hout
  · rw [show cpi_adjust df cpi2 2025 = adjustRows b cpi2 df by simp [cpi_adjust, h2]]
    exact adjustRows_year_missing b cpi2 df r hr hy

/-- CPI table for the C2 witness that lacks the base year 2025. -/
def c2cpi1 : List (Int × ℚ) := [(2020, 250)]

/-- CPI table for the C2 witness that has the base year but not 2020. -/
def c2cpi2 : List (Int × ℚ) := [(2025, 300)]

/-- Input row of the C2 witness, for year 2020. -/
def c2row : NtaYearRow :=
  { nta_code := "U", nta_name := "N", year := 2020, B25064_001E := some 1000 }

/-- Input table of the C2 witness. -/
def c2df : List NtaYearRow := [c2row]

/-- Responses for the C2 witness pipeline run. -/
def c2resps : Int → Option ApiResponse := fun _ =>
  some { status := 200, body := some [] }

/-- Remote TIGER content for the C2 witness pipeline run. -/
def c2env : TigerEnv Nat := { remote := [] }

/-- Containment predicate for the C2 witness pipeline run. -/
def c2within : Nat → Nat → Bool := fun _ _ => false

/-- Witness for C2 at concrete inputs: a CPI table without 2025 makes
`cpi_adjust` and the whole pipeline fail, and a CPI table with 2025 but
without a row's year makes `cpi_adjust` fail on that row. -/
theorem C2_witness :
    cpi_adjust c2df c2cpi1 2025 = .error .cpiBaseMissing
    ∧ main_run c2resps c2env none c2within c2cpi1 2019 2019 ≠ .ok []
    ∧ cpi_adjust c2df c2cpi2 2025 = .error .cpiYearMissing := by
  have h := C2_theorem (G := Nat) c2cpi1 c2cpi2 c2df c2row 300 rfl rfl
      (List.mem_cons_self _ _) rfl
  exact ⟨h.1, h.2.1 c2resps c2env none c2within 2019 2019 [], h.2.2⟩

/-! ## Claim C5 -/

/-- Claim C5: for every row of the unit-year table whose year has an
entry in the CPI index table (all of them, or the operation fails), the
adjusted value equals the raw value times `index[2025] / index[year]`;
in particular a row whose year is the reference year keeps its raw
value.  (Index values are assumed nonzero, as a division by a zero index
value would not produce a number in the source either.) -/
theorem C5_theorem (cpi : List (Int × ℚ)) (df : List NtaYearRow) (b : ℚ)
    (hb : lookupCpi cpi 2025 = some b) (hb0 : b ≠ 0)
    (hall : ∀ r ∈ df, ∃ c, lookupCpi cpi r.year = some c ∧ c ≠ 0) :
    cpi_adjust df cpi 2025 = .ok (df.map (expectedAdjRow cpi b))
    ∧ ∀ r ∈ df, r.year = 2025 → (expectedAdjRow cpi b r).rent_adj = r.B25064_001E := by
  constructor
  · rw [show cpi_adjust df cpi 2025 = adjustRows b cpi df by simp [cpi_adjust, hb]]
    refine adjustRows_ok b cpi df (fun r hr => ?_)
    obtain ⟨c, hc, _⟩ := hall r hr
    simp [hc]
  · intro r hr hy
    simp only [expectedAdjRow]
    rw [hy, hb]
    cases hv : r.B25064_001E with
    | none => rfl
    | some v => simp [div_self hb0]

/-- CPI table of the C5 witness: base year 2025 and year 2020 present. -/
def c5cpi : List (Int × ℚ) := [(2025, 300), (2020, 250)]

/-- Input table of the C5 witness: one row for 2020, one for the
reference year 2025. -/
def c5df : List NtaYearRow :=
  [{ nta_code := "U", nta_name := "N", year := 2020, B25064_001E := some 1000 },
   { nta_code := "U", nta_name := "N", year := 2025, B25064_001E := some 900 }]

/-- Witness for C5 at concrete inputs. -/
theorem C5_witness :
    cpi_adjust c5df c5cpi 2025 = .ok (c5df.map (expectedAdjRow c5cpi 300))
    ∧ ∀ r ∈ c5df, r.year = 2025 →
        (expectedAdjRow c5cpi 300 r).rent_adj = r.B25064_001E := by
  refine C5_theorem c5cpi c5df 300 rfl (by norm_num) ?_
  intro r hr
  rcases List.mem_cons.1 hr with h | h
  · subst h; exact ⟨250, rfl, by norm_num⟩
  · rcases List.mem_cons.1 h with h2 | h2
    · subst h2; exact ⟨300, rfl, by norm_num⟩
    · cases h2

/-! ## Claim C3 -/

/-- Rent input of the C3 example: one tract-year record whose estimate is
missing. -/
def c3rents : List RentRow := [{ geoid := "g1", year := 2020, B25064_001E := none }]

/-- Crosswalk of the C3 example: the tract maps to unit U. -/
def c3cross : List CrossRow := [{ GEOID := "g1", nta_code := some "U", nta_name := some "N" }]

/-- Claim C3, counterexample: a group whose only contributing estimate is
null does NOT disappear from the unit-year table — `groupby(...).median()`
keeps the group key and yields a missing (NaN) median, so the aggregation
emits a row for the key with a null value, contradicting the claim that
no output row is produced. -/
theorem C3_counterexample :
    aggregate_to_nta c3rents c3cross
      = [{ nta_code := "U", nta_name := "N", year := 2020, B25064_001E := none }] := by
  decide

/-- Claim C3, amended: an aggregation group all of whose contributing
estimates are null yields an output row for its key with a null median
value (not zero) — the group appears in the unit-year table with a
missing value rather than disappearing. -/
theorem C3_theorem (rents : List RentRow) (cross : List CrossRow)
    (k : String × String × Int)
    (hk : k ∈ (groupedPairs rents cross).map (fun p => p.1))
    (hnull : ∀ p ∈ groupedPairs rents cross, p.1 = k → p.2 = none) :
    ({ nta_code := k.1, nta_name := k.2.1, year := k.2.2, B25064_001E := none } : NtaYearRow)
      ∈ aggregate_to_nta rents cross := by
  have hmem : k ∈ dedupKeepFirst ((groupedPairs rents cross).map (fun p => p.1)) :=
    (mem_dedupKeepFirst _ _).2 hk
  have hempty :
      ((groupedPairs rents cross).filter (fun p => p.1 = k)).filterMap (fun p => p.2)
        = [] := by
    rw [List.filterMap_eq_nil_iff]
    intro p hp
    rcases List.mem_filter.1 hp with ⟨hp1, hp2⟩
    exact hnull p hp1 (by simpa using hp2)
  simp only [aggregate_to_nta]
  refine List.mem_map.mpr ⟨k, hmem, ?_⟩
  simp [hempty, medianOpt]

/-- Witness for the amended C3 at the concrete all-null group. -/
theorem C3_witness :
    ({ nta_code := "U", nta_name := "N", year := 2020, B25064_001E := none } : NtaYearRow)
      ∈ aggregate_to_nta c3rents c3cross :=
  C3_theorem c3rents c3cross ("U", "N", 2020) (by decide) (by decide)

/-! ## Claim C6 -/

/-- Crosswalk of the C6 examples: three tracts all mapping to unit U. -/
def c6cross : List CrossRow :=
  [{ GEOID := "g1", nta_code := some "U", nta_name := some "N" },
   { GEOID := "g2", nta_code := some "U", nta_name := some "N" },
   { GEOID := "g3", nta_code := some "U", nta_name := some "N" }]

/-- Rent input of the first C6 example: estimates 1000, 1200, 1400. -/
def c6rents1 : List RentRow :=
  [{ geoid := "g1", year := 2020, B25064_001E := some 1000 },
   { geoid := "g2", year := 2020, B25064_001E := some 1200 },
   { geoid := "g3", year := 2020, B25064_001E := some 1400 }]

/-- Rent input of the second C6 example: estimates 1000, null, 1400. -/
def c6rents2 : List RentRow :=
  [{ geoid := "g1", year := 2020, B25064_001E := some 1000 },
   { geoid := "g2", year := 2020, B25064_001E := none },
   { geoid := "g3", year := 2020, B25064_001E := some 1400 }]

/-- Claim C6: every aggregated value is the median of its group's
non-null estimates (nulls excluded, not zero); concretely, the group
[1000, 1200, 1400] yields 1200 and the group [1000, null, 1400] also
yields 1200. -/
theorem C6_theorem :
    (∀ (rents : List RentRow) (cross : List CrossRow) (row : NtaYearRow),
       row ∈ aggregate_to_nta rents cross →
       row.B25064_001E = medianOpt (((groupedPairs rents cross).filter
         (fun p => p.1 = (row.nta_code, row.nta_name, row.year))).filterMap
           (fun p => p.2)))
    ∧ aggregate_to_nta c6rents1 c6cross
        = [{ nta_code := "U", nta_name := "N", year := 2020, B25064_001E := some 1200 }]
    ∧ aggregate_to_nta c6rents2 c6cross
        = [{ nta_code := "U", nta_name := "N", year := 2020, B25064_001E := some 1200 }] := by
  refine ⟨?_, ?_, ?_⟩
  · intro rents cross row hrow
    simp only [aggregate_to_nta] at hrow
    obtain ⟨k, hk, heq⟩ := List.mem_map.1 hrow
    subst heq
    simp
  · simp [aggregate_to_nta, groupedPairs, merge_rents_cross, mergeOne, aggKey,
      c6rents1, c6cross,
      dedupKeepFirst, dedupKeepFirstAux, medianOpt, median, sortRats, insertSorted,
      List.filterMap_cons, List.filterMap_nil, List.flatMap_cons, List.flatMap_nil,
      List.filter_cons]
    norm_num
  · simp [aggregate_to_nta, groupedPairs, merge_rents_cross, mergeOne, aggKey,
      c6rents2, c6cross,
      dedupKeepFirst, dedupKeepFirstAux, medianOpt, median, sortRats, insertSorted,
      List.filterMap_cons, List.filterMap_nil, List.flatMap_cons, List.flatMap_nil,
      List.filter_cons]
    norm_num

/-- The aggregated row of the first C6 example. -/
def c6row : NtaYearRow :=
  { nta_code := "U", nta_name := "N", year := 2020, B25064_001E := some 1200 }

/-- Witness for C6: the universal median characterization applied to the
concrete row of the first example. -/
theorem C6_witness :
    c6row.B25064_001E
      = medianOpt (((groupedPairs c6rents1 c6cross).filter
          (fun p => p.1 = ("U", "N", 2020))).filterMap (fun p => p.2)) := by
  have hmem : c6row ∈ aggregate_to_nta c6rents1 c6cross := by
    rw [C6_theorem.2.1]
    exact List.mem_cons_self _ _
  simpa [c6row] using C6_theorem.1 c6rents1 c6cross _ hmem

/-! ## Supporting lemmas for the spatial join and the merge -/

theorem merge_rents_cross_cons (r : RentRow) (rs : List RentRow) (cross : List CrossRow) :
    merge_rents_cross (r :: rs) cross = mergeOne cross r ++ merge_rents_cross rs cross := by
  simp [merge_rents_cross]

theorem sjBlock_none {G : Type} (within : G → G → Bool) (ntas : List (NtaGeom G))
    (t : TractGeom G) (hno : ∀ n ∈ ntas, within t.geometry n.geometry = false) :
    sjBlock within ntas t = [{ GEOID := t.GEOID, nta_code := none, nta_name := none }] := by
  have hf : ntas.filter (fun n => within t.geometry n.geometry) = [] := by
    rw [List.filter_eq_nil_iff]
    intro n hn
    simp [hno n hn]
  simp [sjBlock, hf]

theorem mergeOne_filter_eq_nil (cross : List CrossRow) (g : String)
    (hg : ∀ c ∈ cross, c.GEOID = g → c.nta_code = none)
    (r : RentRow) (hr : r.geoid = g) :
    (mergeOne cross r).filter (fun m => m.nta_code.isSome) = [] := by
  unfold mergeOne
  cases hfc : cross.filter (fun c => c.GEOID = r.geoid) with
  | nil => simp
  | cons c cs =>
    rw [List.filter_eq_nil_iff]
    intro m hm
    obtain ⟨c0, hc0, rfl⟩ := List.mem_map.1 hm
    have hc0mem : c0 ∈ cross.filter (fun c => c.GEOID = r.geoid) := by
      rw [hfc]; exact hc0
    rcases List.mem_filter.1 hc0mem with ⟨hmem, heq⟩
    have hgeq : c0.GEOID = g := by
      rw [of_decide_eq_true heq, hr]
    have hnone := hg c0 hmem hgeq
    simp [hnone]

theorem merge_filter_drop (cross : List CrossRow) (g : String)
    (hg : ∀ c ∈ cross, c.GEOID = g → c.nta_code = none) :
    ∀ rents : List RentRow,
      (merge_rents_cross rents cross).filter (fun m => m.nta_code.isSome)
        = (merge_rents_cross (rents.filter (fun r => r.geoid ≠ g)) cross).filter
            (fun m => m.nta_code.isSome) := by
  intro rents
  induction rents with
  | nil => rfl
  | cons r rs ih =>
    by_cases hr : r.geoid = g
    · have hfilter : (r :: rs).filter (fun r => r.geoid ≠ g)
          = rs.filter (fun r => r.geoid ≠ g) := by
        simp [List.filter_cons, hr]
      rw [hfilter, ← ih, merge_rents_cross_cons, List.filter_append,
        mergeOne_filter_eq_nil cross g hg r hr, List.nil_append]
    · have hfilter : (r :: rs).filter (fun r => r.geoid ≠ g)
          = r :: rs.filter (fun r => r.geoid ≠ g) := by
        simp [List.filter_cons, hr]
      rw [hfilter, merge_rents_cross_cons, merge_rents_cross_cons,
        List.filter_append, List.filter_append, ih]

theorem sjBlock_map_geoid {G : Type} (within : G → G → Bool) (ntas : List (NtaGeom G))
    (t : TractGeom G)
    (hle : (ntas.filter (fun n => within t.geometry n.geometry)).length ≤ 1) :
    (sjBlock within ntas t).map (fun c => c.GEOID) = [t.GEOID] := by
  unfold sjBlock
  cases hfc : ntas.filter (fun n => within t.geometry n.geometry) with
  | nil => simp
  | cons m ms =>
    cases ms with
    | nil => simp
    | cons m2 ms2 =>
      rw [hfc] at hle
      simp at hle

theorem flatMap_geoids {G : Type} (within : G → G → Bool) (ntas : List (NtaGeom G)) :
    ∀ tracts : List (TractGeom G),
      (∀ t ∈ tracts, (ntas.filter (fun n => within t.geometry n.geometry)).length ≤ 1) →
      (tracts.flatMap (sjBlock within ntas)).map (fun c => c.GEOID)
        = tracts.map (fun t => t.GEOID) := by
  intro tracts
  induction tracts with
  | nil => intro _; rfl
  | cons t ts ih =>
    intro h
    simp only [List.flatMap_cons, List.map_append, List.map_cons]
    rw [sjBlock_map_geoid within ntas t (h t (List.mem_cons_self _ _)),
      ih (fun u hu => h u (List.mem_cons_of_mem _ hu))]
    rfl

/-! ## Claim C4 -/

/-- Claim C4, counterexample: a tract contained in no aggregation unit is
NOT absent from the crosswalk — the spatial join is a LEFT join, so the
tract identifier appears in the crosswalk with missing NTA columns. -/
theorem C4_counterexample :
    spatial_join_to_nta (fun (_ _ : Nat) => false)
        [{ GEOID := "36005000100", geometry := 0 }] []
      = [{ GEOID := "36005000100", nta_code := none, nta_name := none }] := by
  decide

/-- Claim C4, amended: a tract contained in no unit keeps a crosswalk row
whose unit code and name are null (left join), and any statistical
records for such null-mapped tract identifiers are discarded before
aggregation (`dropna(subset=[nta_code])`): aggregating with those records
removed yields the same table. -/
theorem C4_theorem {G : Type} (within : G → G → Bool) (tracts : List (TractGeom G))
    (ntas : List (NtaGeom G)) (t : TractGeom G)
    (ht : t ∈ tracts) (hno : ∀ n ∈ ntas, within t.geometry n.geometry = false) :
    ({ GEOID := t.GEOID, nta_code := none, nta_name := none } : CrossRow)
      ∈ spatial_join_to_nta within tracts ntas
    ∧ ∀ (rents : List RentRow) (cross : List CrossRow) (g : String),
        (∀ c ∈ cross, c.GEOID = g → c.nta_code = none) →
        aggregate_to_nta rents cross
          = aggregate_to_nta (rents.filter (fun r => r.geoid ≠ g)) cross := by
  constructor
  · rw [spatial_join_to_nta, mem_dedupKeepFirst]
    refine List.mem_flatMap.mpr ⟨t, ht, ?_⟩
    rw [sjBlock_none within ntas t hno]
    exact List.mem_cons_self _ _
  · intro rents cross g hg
    unfold aggregate_to_nta groupedPairs
    rw [merge_filter_drop cross g hg rents]

/-- Containment predicate of the C4 witness: nothing is contained. -/
def c4within : Nat → Nat → Bool := fun _ _ => false

/-- Tracts of the C4 witness. -/
def c4tracts : List (TractGeom Nat) := [{ GEOID := "T", geometry := 0 }]

/-- NTAs of the C4 witness. -/
def c4ntas : List (NtaGeom Nat) := [{ nta_code := "N", nta_name := "n", geometry := 1 }]

/-- Rent records of the C4 witness, for the uncontained tract. -/
def c4rents : List RentRow := [{ geoid := "T", year := 2020, B25064_001E := some 5 }]

/-- Crosswalk of the C4 witness: the tract is null-mapped. -/
def c4cross : List CrossRow := [{ GEOID := "T", nta_code := none, nta_name := none }]

/-- Witness for the amended C4 at concrete inputs. -/
theorem C4_witness :
    ({ GEOID := "T", nta_code := none, nta_name := none } : CrossRow)
      ∈ spatial_join_to_nta c4within c4tracts c4ntas
    ∧ aggregate_to_nta c4rents c4cross
        = aggregate_to_nta (c4rents.filter (fun r => r.geoid ≠ "T")) c4cross := by
  have h := C4_theorem c4within c4tracts c4ntas { GEOID := "T", geometry := 0 }
      (List.mem_cons_self _ _) (by decide)
  exact ⟨h.1, h.2 c4rents c4cross "T" (by decide)⟩

/-! ## Claim C8 -/

/-- Containment predicate of the C8 counterexample: overlapping unit
polygons both fully containing the tract. -/
def c8badwithin : Nat → Nat → Bool := fun _ _ => true

/-- Tracts of the C8 counterexample. -/
def c8badtracts : List (TractGeom Nat) := [{ GEOID := "T", geometry := 0 }]

/-- Two overlapping NTAs of the C8 counterexample, both containing the
tract. -/
def c8badntas : List (NtaGeom Nat) :=
  [{ nta_code := "N1", nta_name := "n1", geometry := 0 },
   { nta_code := "N2", nta_name := "n2", geometry := 0 }]

/-- Claim C8, counterexample: when a tract is fully contained in two
overlapping unit polygons, the left spatial join emits one row per
containing unit and `drop_duplicates` keeps both (they differ in the
unit columns), so the tract identifier appears twice in the crosswalk,
contradicting the claim that each fine identifier appears at most once. -/
theorem C8_counterexample :
    spatial_join_to_nta c8badwithin c8badtracts c8badntas
      = [{ GEOID := "T", nta_code := some "N1", nta_name := some "n1" },
         { GEOID := "T", nta_code := some "N2", nta_name := some "n2" }]
    ∧ ¬ ((spatial_join_to_nta c8badwithin c8badtracts c8badntas).map
          (fun c => c.GEOID)).Nodup := by
  decide

/-- Claim C8, amended: the crosswalk never contains duplicate rows
(fine-to-unit pairs) after deduplication; and provided the input tract
identifiers are distinct and no tract geometry is fully contained in
more than one unit polygon (units with disjoint interiors), every tract
identifier appears at most once in the crosswalk. -/
theorem C8_theorem {G : Type} (within : G → G → Bool) (tracts : List (TractGeom G))
    (ntas : List (NtaGeom G))
    (h1 : (tracts.map (fun t => t.GEOID)).Nodup)
    (h2 : ∀ t ∈ tracts, (ntas.filter (fun n => within t.geometry n.geometry)).length ≤ 1) :
    ((spatial_join_to_nta within tracts ntas).map (fun c => c.GEOID)).Nodup
    ∧ (spatial_join_to_nta within tracts ntas).Nodup := by
  constructor
  · have hsub : List.Sublist (spatial_join_to_nta within tracts ntas)
        (tracts.flatMap (sjBlock within ntas)) := sublist_dedupKeepFirst _
    have hmap := hsub.map (fun c => c.GEOID)
    have hall : ((tracts.flatMap (sjBlock within ntas)).map (fun c => c.GEOID)).Nodup := by
      rw [flatMap_geoids within ntas tracts h2]
      exact h1
    exact List.Nodup.sublist hmap hall
  · exact nodup_dedupKeepFirst _

/-- Containment predicate of the C8 witness: a tract is contained in the
unit with the same abstract geometry. -/
def c8within : Nat → Nat → Bool := fun a b => a == b

/-- Tracts of the C8 witness: distinct identifiers, one contained in the
unit, one uncontained. -/
def c8tracts : List (TractGeom Nat) :=
  [{ GEOID := "T1", geometry := 0 }, { GEOID := "T2", geometry := 1 }]

/-- The single NTA of the C8 witness. -/
def c8ntas : List (NtaGeom Nat) := [{ nta_code := "N", nta_name := "n", geometry := 0 }]

/-- Witness for the amended C8 at concrete inputs. -/
theorem C8_witness :
    ((spatial_join_to_nta c8within c8tracts c8ntas).map (fun c => c.GEOID)).Nodup
    ∧ (spatial_join_to_nta c8within c8tracts c8ntas).Nodup :=
  C8_theorem c8within c8tracts c8ntas (by decide) (by decide)

/-! ## Supporting lemmas for the pivot -/

theorem meanOpt_isSome (l : List ℚ) : (meanOpt l).isSome = true ↔ l ≠ [] := by
  cases l <;> simp [meanOpt]

theorem mem_pivotGroups (df : List AdjRow) (g : (String × String × Int) × Option ℚ) :
    g ∈ pivotGroups df ↔ g.1 ∈ df.map pkey ∧
      g.2 = meanOpt ((df.filter (fun r => pkey r = g.1)).filterMap (fun r => r.rent_adj)) := by
  unfold pivotGroups
  constructor
  · intro h
    obtain ⟨k, hk, heq⟩ := List.mem_map.1 h
    subst heq
    exact ⟨(mem_dedupKeepFirst _ _).1 hk, rfl⟩
  · rintro ⟨h1, h2⟩
    refine List.mem_map.mpr ⟨g.1, (mem_dedupKeepFirst _ _).2 h1, ?_⟩
    exact Prod.ext rfl h2.symm

theorem filterMap_rentAdj_ne_nil (df : List AdjRow) (k : String × String × Int) :
    (df.filter (fun r => pkey r = k)).filterMap (fun r => r.rent_adj) ≠ [] ↔
      ∃ r ∈ df, pkey r = k ∧ r.rent_adj ≠ none := by
  rw [Ne, List.filterMap_eq_nil_iff]
  constructor
  · intro h
    by_contra hc
    push_neg at hc
    refine h (fun a ha => ?_)
    rcases List.mem_filter.1 ha with ⟨ha1, ha2⟩
    exact hc a ha1 (of_decide_eq_true ha2)
  · rintro ⟨r, hr, hk, hv⟩ h
    exact hv (h r (List.mem_filter.2 ⟨hr, by simpa using hk⟩))

theorem mem_pivotPairs (df : List AdjRow) (p : String × String) :
    p ∈ pivotPairs df ↔ ∃ r ∈ df, (r.nta_code, r.nta_name) = p ∧ r.rent_adj ≠ none := by
  unfold pivotPairs
  rw [mem_dedupKeepFirst]
  constructor
  · intro h
    obtain ⟨g, hg, heq⟩ := List.mem_map.1 h
    have hg1 : g ∈ pivotGroups df := (List.mem_filter.1 hg).1
    have hg2 : g.2.isSome = true := by simpa using (List.mem_filter.1 hg).2
    obtain ⟨hmem, hval⟩ := (mem_pivotGroups df g).1 hg1
    rw [hval] at hg2
    have hne : (df.filter (fun r => pkey r = g.1)).filterMap (fun r => r.rent_adj) ≠ [] :=
      (meanOpt_isSome _).1 hg2
    obtain ⟨r, hr, hk, hv⟩ := (filterMap_rentAdj_ne_nil df g.1).1 hne
    refine ⟨r, hr, ?_, hv⟩
    rw [← heq, ← hk]
    rfl
  · rintro ⟨r, hr, hpq, hv⟩
    have hkmem : pkey r ∈ df.map pkey := List.mem_map_of_mem pkey hr
    have hne : (df.filter (fun r2 => pkey r2 = pkey r)).filterMap (fun r2 => r2.rent_adj) ≠ [] :=
      (filterMap_rentAdj_ne_nil df (pkey r)).2 ⟨r, hr, rfl, hv⟩
    refine List.mem_map.mpr
      ⟨(pkey r, meanOpt ((df.filter (fun r2 => pkey r2 = pkey r)).filterMap
          (fun r2 => r2.rent_adj))), ?_, ?_⟩
    · refine List.mem_filter.2 ⟨(mem_pivotGroups df _).2 ⟨hkmem, rfl⟩, ?_⟩
      simpa using (meanOpt_isSome _).2 hne
    · rw [← hpq]
      rfl

theorem pivot_wide_map_pairs (df : List AdjRow) :
    (pivot_wide df).map (fun w => (w.nta_code, w.nta_name)) = pivotPairs df := by
  unfold pivot_wide
  rw [List.map_map]
  have hcomp : ((fun w => (w.nta_code, w.nta_name)) ∘ pivotRow df)
      = (id : String × String → String × String) := by
    funext p
    cases p
    rfl
  rw [hcomp, List.map_id]

/-! ## Claim C7 -/

/-- Input of the C7 counterexample: two distinct (unit, name) pairs, unit
A with a null adjusted value only. -/
def c7df : List AdjRow :=
  [{ nta_code := "A", nta_name := "nA", year := 2019, B25064_001E := none, rent_adj := none },
   { nta_code := "B", nta_name := "nB", year := 2019, B25064_001E := some 1000, rent_adj := some 1000 }]

/-- Claim C7, counterexample: `pivot_table` with its default
`dropna=True` drops aggregated groups whose value is NaN, so a (unit
code, unit name) pair all of whose adjusted values are null disappears
from the wide table entirely — the input has two distinct pairs but the
pivot emits one row, contradicting the claim of exactly one row per
distinct pair. -/
theorem C7_counterexample :
    (pivot_wide c7df).map (fun w => (w.nta_code, w.nta_name)) = [("B", "nB")]
    ∧ dedupKeepFirst (c7df.map (fun r => (r.nta_code, r.nta_name)))
        = [("A", "nA"), ("B", "nB")] := by
  constructor
  · decide
  · decide

/-- Claim C7, amended: the pivot produces exactly one row per distinct
(unit code, unit name) pair that has at least one non-null adjusted
value (all-null pairs are dropped by `pivot_table` with `dropna=True`),
one column per year of the surviving groups named `rent_<year>`, and an
absent (unit, year) combination yields a missing cell, never zero. -/
theorem C7_theorem (df : List AdjRow) :
    (∀ p : String × String,
       p ∈ (pivot_wide df).map (fun w => (w.nta_code, w.nta_name)) ↔
         ∃ r ∈ df, (r.nta_code, r.nta_name) = p ∧ r.rent_adj ≠ none)
    ∧ ((pivot_wide df).map (fun w => (w.nta_code, w.nta_name))).Nodup
    ∧ ∀ w ∈ pivot_wide df, ∀ y ∈ pivotYears df,
        (∀ r ∈ df, ¬(r.nta_code = w.nta_code ∧ r.nta_name = w.nta_name ∧ r.year = y)) →
        ("rent_" ++ toString y, none) ∈ w.cells := by
  refine ⟨?_, ?_, ?_⟩
  · intro p
    rw [pivot_wide_map_pairs]
    exact mem_pivotPairs df p
  · rw [pivot_wide_map_pairs]
    exact nodup_dedupKeepFirst _
  · intro w hw y hy hnone
    obtain ⟨p, hp, rfl⟩ := List.mem_map.1 hw
    have hfind : (survivingGroups df).find? (fun g => g.1 = (p.1, p.2, y)) = none := by
      rw [List.find?_eq_none]
      intro g hg hgk
      have hgk2 : g.1 = (p.1, p.2, y) := of_decide_eq_true hgk
      have hg1 : g ∈ pivotGroups df := (List.mem_filter.1 hg).1
      have hmem := ((mem_pivotGroups df g).1 hg1).1
      obtain ⟨r, hr, hpk⟩ := List.mem_map.1 hmem
      have hall : pkey r = (p.1, p.2, y) := hpk.trans hgk2
      have hparts : r.nta_code = p.1 ∧ r.nta_name = p.2 ∧ r.year = y := by
        have h1 := congrArg Prod.fst hall
        have h2 := congrArg (fun q => q.2.1) hall
        have h3 := congrArg (fun q => q.2.2) hall
        exact ⟨h1, h2, h3⟩
      exact hnone r hr hparts
    show ("rent_" ++ toString y, none) ∈ (pivotRow df p).cells
    unfold pivotRow
    refine List.mem_map.mpr ⟨y, hy, ?_⟩
    rw [hfind]
    rfl

/-- Input of the C7 witness: units A and B, years 2019 and 2020, with
the (A, 2020) cell absent, all present values non-null. -/
def c7wdf : List AdjRow :=
  [{ nta_code := "A", nta_name := "nA", year := 2019, B25064_001E := some 1000, rent_adj := some 1500 },
   { nta_code := "B", nta_name := "nB", year := 2019, B25064_001E := some 1100, rent_adj := some 1600 },
   { nta_code := "B", nta_name := "nB", year := 2020, B25064_001E := some 1200, rent_adj := some 1700 }]

/-- Witness for the amended C7: unit A keeps a row, rows are unique per
pair, and the absent (A, 2020) combination yields a missing cell. -/
theorem C7_witness :
    (("A", "nA") ∈ (pivot_wide c7wdf).map (fun w => (w.nta_code, w.nta_name)))
    ∧ ((pivot_wide c7wdf).map (fun w => (w.nta_code, w.nta_name))).Nodup
    ∧ ("rent_" ++ toString (2020 : Int), none) ∈ (pivotRow c7wdf ("A", "nA")).cells := by
  have h := C7_theorem c7wdf
  refine ⟨?_, h.2.1, ?_⟩
  · refine (h.1 ("A", "nA")).mpr
      ⟨{ nta_code := "A", nta_name := "nA", year := 2019,
         B25064_001E := some 1000, rent_adj := some 1500 },
       List.mem_cons_self _ _, rfl, by simp⟩
  · refine h.2.2 (pivotRow c7wdf ("A", "nA")) ?_ 2020 ?_ ?_
    · exact List.mem_map.mpr ⟨("A", "nA"), by decide, rfl⟩
    · decide
    · decide
